import Mathlib

/-
Shallow embedding of src/app.py, the credit-metered API gateway.

Modelling conventions:
  - The two global mutable tables API_KEYS_STORAGE (a dict from key string to
    account record) and REQUEST_LOGS_STORAGE (a list of log dicts) become the
    two fields of an explicit state record ApiState, threaded through every
    function.  The dict is an association list; lookup and update both act on
    the first matching entry, which coincides with dict semantics since the
    program never inserts a key twice.
  - datetime.utcnow() values are abstracted as a Time record carrying the UTC
    calendar day (day) and an instant within it (tick); .date() comparison in
    update_usage becomes comparison of the day fields.  Each endpoint receives
    the current Time and the measured elapsed seconds as parameters, since the
    claims never constrain the clock itself.
  - Python ints are Int where the code can subtract (credits) and Nat for the
    pure counters (total_requests, daily_requests that only grow or reset).
  - raising HTTPException(status, detail) becomes returning
    Response.error status detail together with the unchanged state; a normal
    return becomes Response.success body.
  - the one real downstream call (httpx GET in number_service) is a parameter
    of type Except String String: Except.ok body is a 2xx response with that
    body, Except.error cause is any network error, timeout or non-success
    status raised by raise_for_status.
-/

/-- Abstract UTC timestamp: the calendar day and an instant within the day. -/
structure Time where
  day : Nat
  tick : Nat
deriving Repr, DecidableEq

/-- One account record of API_KEYS_STORAGE, fields as created in init_storage. -/
structure KeyData where
  id : Nat
  key : String
  name : String
  created_at : Time
  is_active : Bool
  total_requests : Nat
  daily_requests : Nat
  daily_limit : Nat
  credits : Int
  last_reset : Time
  last_used : Option Time
  expires_at : Time
deriving Repr, DecidableEq

/-- One entry of REQUEST_LOGS_STORAGE, fields as appended by log_request. -/
structure LogEntry where
  id : Nat
  api_key : String
  endpoint : String
  prompt : Option String
  response_time : Option Nat
  credits_used : Int
  created_at : Time
deriving Repr, DecidableEq

/-- The mutable program state: API_KEYS_STORAGE and REQUEST_LOGS_STORAGE. -/
structure ApiState where
  keys : List (String × KeyData)
  logs : List LogEntry
deriving Repr, DecidableEq

/-- Dict lookup API_KEYS_STORAGE[k]: first matching entry of the association list. -/
def lookupKey : List (String × KeyData) → String → Option KeyData
  | [], _ => none
  | (k, d) :: rest, api_key => if k = api_key then some d else lookupKey rest api_key

/-- Dict update API_KEYS_STORAGE[k] = f(old): rewrites the first matching entry. -/
def updateKey : List (String × KeyData) → String → (KeyData → KeyData) → List (String × KeyData)
  | [], _, _ => []
  | (k, d) :: rest, api_key, f =>
      if k = api_key then (k, f d) :: rest else (k, d) :: updateKey rest api_key f

/-- check_credits of app.py: false when the key is absent or inactive, else the
balance comparison credits >= credits_needed. -/
def check_credits (st : ApiState) (api_key : String) (credits_needed : Int) : Bool :=
  match lookupKey st.keys api_key with
  | none => false
  | some key_data =>
      if key_data.is_active = false then false
      else decide (credits_needed ≤ key_data.credits)

/-- use_credits of app.py: deduct credits_used from the balance of api_key, a
no-op when the key is absent. -/
def use_credits (st : ApiState) (api_key : String) (credits_used : Int) : ApiState :=
  { st with keys := updateKey st.keys api_key (fun kd => { kd with credits := kd.credits - credits_used }) }

/-- log_request of app.py: append an entry with id = len(logs) + 1, then pop
the front entry when the length exceeds 100. -/
def log_request (st : ApiState) (api_key endpoint : String) (prompt : Option String)
    (response_time : Option Nat) (credits_used : Int) (now : Time) : ApiState :=
  let entry : LogEntry :=
    { id := st.logs.length + 1
      api_key := api_key
      endpoint := endpoint
      prompt := prompt
      response_time := response_time
      credits_used := credits_used
      created_at := now }
  let logs1 := st.logs ++ [entry]
  { st with logs := if logs1.length > 100 then logs1.drop 1 else logs1 }

/-- Per-account body of update_usage of app.py: bump both counters and
last_used, then reset the daily counter when the stored reset date is before
today. -/
def bumpUsage (now : Time) (kd : KeyData) : KeyData :=
  let kd1 := { kd with total_requests := kd.total_requests + 1,
                       daily_requests := kd.daily_requests + 1,
                       last_used := some now }
  if kd1.last_reset.day < now.day then
    { kd1 with daily_requests := 1, last_reset := now }
  else kd1

/-- update_usage of app.py, a no-op when the key is absent. -/
def update_usage (st : ApiState) (api_key : String) (now : Time) : ApiState :=
  { st with keys := updateKey st.keys api_key (bumpUsage now) }

/-- Outcome of one HTTP handler: a successful body or an HTTPException with
status code and detail string. -/
inductive Response where
  | success (body : String)
  | error (status : Nat) (detail : String)
deriving Repr, DecidableEq

/-- Characters urllib.parse.quote leaves unescaped with the default safe set. -/
def isUrlSafe (c : Char) : Bool :=
  c.isAlphanum || c = '_' || c = '.' || c = '-' || c = '~' || c = '/'

/-- Two-digit uppercase hex percent escape of one byte. -/
def percentEncodeByte (b : Nat) : String :=
  let hex := fun n => if n < 10 then Char.ofNat (48 + n) else Char.ofNat (55 + n)
  String.mk ['%', hex (b / 16), hex (b % 16)]

/-- urllib.parse.quote: keep safe characters, percent-encode the UTF-8 bytes of
the rest. -/
def urlQuote (s : String) : String :=
  s.data.foldl (fun acc c =>
    if isUrlSafe c then acc.push c
    else ((String.mk [c]).toUTF8.toList.foldl
      (fun a b => a ++ percentEncodeByte b.toNat) acc)) ""

/-- ffinfo_redirect of app.py, cost 1 credit; the handler only builds a
redirect URL locally, no downstream call is made. -/
def ffinfo_redirect (st : ApiState) (uid api_key : String) (now : Time)
    (elapsed : Nat) : Response × ApiState :=
  if check_credits st api_key 1 = false then
    (Response.error 402 "Insufficient credits. This service costs 1 credit.", st)
  else if lookupKey st.keys api_key = none then
    (Response.error 401 "Invalid API key", st)
  else
    let redirect_url :=
      "https://danger-info-alpha.vercel.app/accinfo?uid=" ++ uid ++ "&key=MK_DEVELOPER"
    let st1 := use_credits st api_key 1
    let st2 := update_usage st1 api_key now
    let st3 := log_request st2 api_key "/ffinfo" (some uid) (some elapsed) 1 now
    (Response.success redirect_url, st3)

/-- image_generation of app.py, cost 2 credits; the handler only builds an
image URL locally, no downstream call is made. -/
def image_generation (st : ApiState) (prompt : String) (width height : Nat)
    (api_key : String) (now : Time) (elapsed : Nat) : Response × ApiState :=
  if check_credits st api_key 2 = false then
    (Response.error 402 "Insufficient credits. This service costs 2 credits.", st)
  else if lookupKey st.keys api_key = none then
    (Response.error 401 "Invalid API key", st)
  else
    let direct_image_url := "https://image.pollinations.ai/prompt/" ++ urlQuote prompt
      ++ "?width=" ++ toString width ++ "&height=" ++ toString height ++ "&nologo=true"
    let st1 := use_credits st api_key 2
    let st2 := update_usage st1 api_key now
    let st3 := log_request st2 api_key "/image" (some prompt) (some elapsed) 2 now
    (Response.success direct_image_url, st3)

/-- voice_generation of app.py, cost 1 credit; the handler only builds a TTS
URL locally, no downstream call is made. -/
def voice_generation (st : ApiState) (text api_key : String) (now : Time)
    (elapsed : Nat) : Response × ApiState :=
  if check_credits st api_key 1 = false then
    (Response.error 402 "Insufficient credits. This service costs 1 credit.", st)
  else if lookupKey st.keys api_key = none then
    (Response.error 401 "Invalid API key", st)
  else
    let voice_url := "https://api.murf.ai/api/v1/speech/synthesize/stream?text="
      ++ urlQuote text
      ++ "&voice=en-US-Standard-B&format=mp3&style=neutral&spokenPacing=medium"
    let st1 := use_credits st api_key 1
    let st2 := update_usage st1 api_key now
    let st3 := log_request st2 api_key "/voice" (some text) (some elapsed) 1 now
    (Response.success voice_url, st3)

/-- qr_generation of app.py, cost 1 credit; the handler only builds a QR URL
locally, no downstream call is made. -/
def qr_generation (st : ApiState) (data api_key : String) (now : Time)
    (elapsed : Nat) : Response × ApiState :=
  if check_credits st api_key 1 = false then
    (Response.error 402 "Insufficient credits. This service costs 1 credit.", st)
  else if lookupKey st.keys api_key = none then
    (Response.error 401 "Invalid API key", st)
  else
    let qr_url := "https://api.qrserver.com/v1/create-qr-code/?size=200x200&data="
      ++ urlQuote data ++ "&format=svg"
    let st1 := use_credits st api_key 1
    let st2 := update_usage st1 api_key now
    let st3 := log_request st2 api_key "/qr" (some data) (some elapsed) 1 now
    (Response.success qr_url, st3)

/-- video_generation of app.py, cost 2 credits; the handler only builds a URL
locally, no downstream call is made. -/
def video_generation (st : ApiState) (prompt api_key : String) (now : Time)
    (elapsed : Nat) : Response × ApiState :=
  if check_credits st api_key 2 = false then
    (Response.error 402 "Insufficient credits. This service costs 2 credits.", st)
  else if lookupKey st.keys api_key = none then
    (Response.error 401 "Invalid API key", st)
  else
    let video_url := "https://image.pollinations.ai/prompt/" ++ urlQuote prompt
      ++ "?width=512&height=512&nologo=true&seed=1&model=black-forest-labs/flux"
    let st1 := use_credits st api_key 2
    let st2 := update_usage st1 api_key now
    let st3 := log_request st2 api_key "/video" (some prompt) (some elapsed) 2 now
    (Response.success video_url, st3)

/-- number_service of app.py, cost 5 credits; the only handler with a real
downstream call (httpx GET with raise_for_status), passed in as an Except:
Except.ok is a 2xx body, Except.error is any network failure, timeout or
non-success status, which the except-branch of the handler turns into a 500. -/
def number_service (st : ApiState) (mobile api_key : String)
    (downstream : Except String String) (now : Time) (elapsed : Nat) :
    Response × ApiState :=
  if check_credits st api_key 5 = false then
    (Response.error 402 "Insufficient credits. This service costs 5 credits.", st)
  else if lookupKey st.keys api_key = none then
    (Response.error 401 "Invalid API key", st)
  else
    match downstream with
    | Except.error cause => (Response.error 500 ("Number service error: " ++ cause), st)
    | Except.ok num_response =>
      let st1 := use_credits st api_key 5
      let st2 := update_usage st1 api_key now
      let st3 := log_request st2 api_key "/num" (some mobile) (some elapsed) 5 now
      (Response.success num_response, st3)

/-- One inbound metered request, with its clock and, for num, the downstream
outcome. -/
inductive Request where
  | ffinfo (uid api_key : String) (now : Time) (elapsed : Nat)
  | image (prompt : String) (width height : Nat) (api_key : String) (now : Time) (elapsed : Nat)
  | voice (text api_key : String) (now : Time) (elapsed : Nat)
  | qr (data api_key : String) (now : Time) (elapsed : Nat)
  | video (prompt api_key : String) (now : Time) (elapsed : Nat)
  | num (mobile api_key : String) (downstream : Except String String) (now : Time) (elapsed : Nat)

/-- Dispatch one request to its handler. -/
def runRequest (st : ApiState) : Request → Response × ApiState
  | Request.ffinfo uid k now el => ffinfo_redirect st uid k now el
  | Request.image p w h k now el => image_generation st p w h k now el
  | Request.voice t k now el => voice_generation st t k now el
  | Request.qr d k now el => qr_generation st d k now el
  | Request.video p k now el => video_generation st p k now el
  | Request.num m k ds now el => number_service st m k ds now el

/-- State after one request, the response discarded. -/
def stepRequest (st : ApiState) (r : Request) : ApiState := (runRequest st r).2

/-- State after a sequence of requests, each completing before the next. -/
def runRequests (st : ApiState) : List Request → ApiState
  | [] => st
  | r :: rs => runRequests (stepRequest st r) rs

/-- The state with no keys and no logs. -/
def emptyState : ApiState := { keys := [], logs := [] }

/-- n consecutive log_request appends with fixed arguments, to exercise the
ledger lifetime behaviour. -/
def appendMany (st : ApiState) : Nat → ApiState
  | 0 => st
  | n + 1 => appendMany (log_request st "k" "/image" none none 2 ⟨0, 0⟩) n

/-- The default account created by init_storage of app.py (credits 50,
daily_limit 30, active, one-year expiry), used as a concrete fixture. -/
def exKd : KeyData :=
  { id := 1
    key := "K"
    name := "Test Key"
    created_at := ⟨0, 0⟩
    is_active := true
    total_requests := 0
    daily_requests := 0
    daily_limit := 30
    credits := 50
    last_reset := ⟨0, 0⟩
    last_used := none
    expires_at := ⟨365, 0⟩ }

/-- A store holding only the default account under key K. -/
def exState : ApiState := { keys := [("K", exKd)], logs := [] }

/-- A store holding only a deactivated copy of the default account. -/
def inactiveState : ApiState :=
  { keys := [("IK", { exKd with is_active := false })], logs := [] }

/-- Updating a key and then looking it up yields the transformed record of the
original lookup. -/
theorem lookup_updateKey_self (s : List (String × KeyData)) (k : String)
    (f : KeyData → KeyData) :
    lookupKey (updateKey s k f) k = Option.map f (lookupKey s k) := by
  induction s with
  | nil => rfl
  | cons hd tl ih =>
    obtain ⟨k0, d0⟩ := hd
    by_cases h : k0 = k
    · simp [updateKey, lookupKey, h]
    · simp [updateKey, lookupKey, h, ih]

/-- A successful lookup returns an entry of the list. -/
theorem lookup_mem (s : List (String × KeyData)) (k : String) (d : KeyData)
    (h : lookupKey s k = some d) : (k, d) ∈ s := by
  induction s with
  | nil => simp [lookupKey] at h
  | cons hd tl ih =>
    obtain ⟨k0, d0⟩ := hd
    by_cases he : k0 = k
    · subst he
      simp [lookupKey] at h
      subst h
      exact List.mem_cons_self _ _
    · simp [lookupKey, he] at h
      exact List.mem_cons_of_mem _ (ih h)

/-- Every entry of an updated store is an old entry or the transform of the
looked-up record under the updated key. -/
theorem mem_updateKey (s : List (String × KeyData)) (k : String)
    (f : KeyData → KeyData) (p : String × KeyData)
    (hp : p ∈ updateKey s k f) :
    p ∈ s ∨ ∃ d, lookupKey s k = some d ∧ p = (k, f d) := by
  induction s with
  | nil => simp [updateKey] at hp
  | cons hd tl ih =>
    obtain ⟨k0, d0⟩ := hd
    by_cases he : k0 = k
    · subst he
      simp only [updateKey, if_pos rfl] at hp
      rcases List.mem_cons.mp hp with h1 | h1
      · exact Or.inr ⟨d0, by simp [lookupKey], h1⟩
      · exact Or.inl (List.mem_cons_of_mem _ h1)
    · simp only [updateKey, if_neg he] at hp
      rcases List.mem_cons.mp hp with h1 | h1
      · exact Or.inl (List.mem_cons.mpr (Or.inl h1))
      · rcases ih h1 with h2 | ⟨d, hd, hpd⟩
        · exact Or.inl (List.mem_cons_of_mem _ h2)
        · exact Or.inr ⟨d, by simp [lookupKey, he, hd], hpd⟩

/-- A passing credit check names an account that is present, active and holds
at least the needed credits. -/
theorem check_credits_spec (st : ApiState) (k : String) (c : Int)
    (h : check_credits st k c = true) :
    ∃ kd, lookupKey st.keys k = some kd ∧ kd.is_active = true ∧ c ≤ kd.credits := by
  unfold check_credits at h
  split at h
  · simp at h
  next kd hl =>
    split at h
    · simp at h
    next hA =>
      refine ⟨kd, hl, ?_, of_decide_eq_true h⟩
      revert hA
      cases kd.is_active <;> simp

/-- The credit check passes for a present, active account with enough
credits. -/
theorem check_credits_true (st : ApiState) (k : String) (kd : KeyData) (c : Int)
    (hk : lookupKey st.keys k = some kd) (ha : kd.is_active = true)
    (hc : c ≤ kd.credits) : check_credits st k c = true := by
  unfold check_credits
  rw [hk]
  show (if kd.is_active = false then false else decide (c ≤ kd.credits)) = true
  rw [ha]
  simp [hc]

/-- The credit check fails on a present account whose balance is below the
cost, active or not. -/
theorem check_credits_false_of_lt (st : ApiState) (k : String) (kd : KeyData)
    (c : Int) (hk : lookupKey st.keys k = some kd) (hlt : kd.credits < c) :
    check_credits st k c = false := by
  unfold check_credits
  rw [hk]
  show (if kd.is_active = false then false else decide (c ≤ kd.credits)) = false
  cases hA : kd.is_active with
  | false => simp
  | true =>
    simp
    omega

/-- bumpUsage never changes the balance. -/
theorem bumpUsage_credits (now : Time) (kd : KeyData) :
    (bumpUsage now kd).credits = kd.credits := by
  unfold bumpUsage
  dsimp only
  split <;> rfl

/-- bumpUsage increments the lifetime counter by exactly one in both
branches. -/
theorem bumpUsage_total (now : Time) (kd : KeyData) :
    (bumpUsage now kd).total_requests = kd.total_requests + 1 := by
  unfold bumpUsage
  dsimp only
  split <;> rfl

/-- Day rollover branch of bumpUsage: the daily counter restarts at one and
the reset date becomes the current time, whatever the prior counter. -/
theorem bumpUsage_rollover (now : Time) (kd : KeyData)
    (h : kd.last_reset.day < now.day) :
    (bumpUsage now kd).daily_requests = 1 ∧ (bumpUsage now kd).last_reset = now := by
  unfold bumpUsage
  rw [if_pos h]
  exact ⟨rfl, rfl⟩

/-- Same-day branch of bumpUsage: the daily counter is incremented by one and
the reset date is untouched. -/
theorem bumpUsage_same_day (now : Time) (kd : KeyData)
    (h : ¬ kd.last_reset.day < now.day) :
    (bumpUsage now kd).daily_requests = kd.daily_requests + 1 ∧
    (bumpUsage now kd).last_reset = kd.last_reset := by
  unfold bumpUsage
  rw [if_neg h]
  exact ⟨rfl, rfl⟩

/-- The key table is untouched by log_request. -/
theorem log_request_keys (st : ApiState) (k e : String) (pr : Option String)
    (rt : Option Nat) (c : Int) (t : Time) :
    (log_request st k e pr rt c t).keys = st.keys := rfl

/-- The ledger is untouched by use_credits and update_usage. -/
theorem charge_logs_untouched (st : ApiState) (k : String) (c : Int) (t : Time) :
    (update_usage (use_credits st k c) k t).logs = st.logs := rfl

/-- Account record after the success path use_credits; update_usage of a
handler: the balance drops by the cost and the usage fields are bumped. -/
theorem lookup_after_charge (st : ApiState) (k : String) (kd : KeyData)
    (c : Int) (now : Time) (hk : lookupKey st.keys k = some kd) :
    lookupKey (update_usage (use_credits st k c) k now).keys k
      = some (bumpUsage now { kd with credits := kd.credits - c }) := by
  unfold update_usage use_credits
  simp only [lookup_updateKey_self, hk, Option.map_some]
  rfl

/-- The entry appended by log_request. -/
def newLogEntry (st : ApiState) (api_key endpoint : String) (prompt : Option String)
    (response_time : Option Nat) (credits_used : Int) (now : Time) : LogEntry :=
  { id := st.logs.length + 1
    api_key := api_key
    endpoint := endpoint
    prompt := prompt
    response_time := response_time
    credits_used := credits_used
    created_at := now }

/-- Ledger after log_request: the new entry goes to the back and the front
entry is dropped exactly when the appended length exceeds 100. -/
theorem log_request_logs (st : ApiState) (k e : String) (pr : Option String)
    (rt : Option Nat) (c : Int) (t : Time) :
    (log_request st k e pr rt c t).logs
      = (st.logs ++ [newLogEntry st k e pr rt c t]).drop
          (if st.logs.length + 1 > 100 then 1 else 0) := by
  unfold log_request newLogEntry
  simp only [List.length_append, List.length_cons, List.length_nil, Nat.zero_add]
  split
  · rfl
  · rw [List.drop_zero]

/-- A Bool that is not false is true. -/
theorem bool_eq_true_of_not_false (b : Bool) (h : ¬ b = false) : b = true := by
  cases b
  · exact absurd rfl h
  · rfl

/-- Outcome of a successfully charged handler call: a success response, the
balance down by exactly the cost, the lifetime counter up by exactly one, and
exactly one new ledger entry at the back recording that cost. -/
def ChargedOutcome (st : ApiState) (k : String) (kd : KeyData) (cost : Int)
    (out : Response × ApiState) : Prop :=
  (∃ body, out.1 = Response.success body) ∧
  (∃ kd2, lookupKey out.2.keys k = some kd2 ∧ kd2.credits = kd.credits - cost ∧
    kd2.total_requests = kd.total_requests + 1) ∧
  (∃ e, e.credits_used = cost ∧
    out.2.logs = (st.logs ++ [e]).drop (if st.logs.length + 1 > 100 then 1 else 0))

/-- Daily-counter outcome of a successfully charged handler call: on a later
day the counter restarts at one and the reset date becomes now, whatever the
prior counter was; on the same day it is incremented by one. -/
def RolloverOutcome (k : String) (kd : KeyData) (now : Time)
    (out : Response × ApiState) : Prop :=
  ∃ kd2, lookupKey out.2.keys k = some kd2 ∧
    (kd.last_reset.day < now.day →
      kd2.daily_requests = 1 ∧ kd2.last_reset = now) ∧
    (kd.last_reset.day = now.day →
      kd2.daily_requests = kd.daily_requests + 1 ∧ kd2.last_reset = kd.last_reset)

/-- The use_credits; update_usage; log_request success path of every handler
satisfies both outcome predicates. -/
theorem charged_pipeline_outcome (st : ApiState) (k : String) (kd : KeyData)
    (cost : Int) (e : String) (pr : Option String) (rt : Option Nat) (now : Time)
    (body : String) (hk : lookupKey st.keys k = some kd) :
    ChargedOutcome st k kd cost
      (Response.success body,
        log_request (update_usage (use_credits st k cost) k now) k e pr rt cost now) ∧
    RolloverOutcome k kd now
      (Response.success body,
        log_request (update_usage (use_credits st k cost) k now) k e pr rt cost now) := by
  have hkd2 : lookupKey (log_request (update_usage (use_credits st k cost) k now) k e pr rt cost now).keys k
      = some (bumpUsage now { kd with credits := kd.credits - cost }) := by
    rw [log_request_keys]
    exact lookup_after_charge st k kd cost now hk
  have hlogs := log_request_logs (update_usage (use_credits st k cost) k now) k e pr rt cost now
  rw [charge_logs_untouched] at hlogs
  refine ⟨⟨⟨body, rfl⟩, ⟨_, hkd2, ?_, ?_⟩, ⟨_, rfl, hlogs⟩⟩, ⟨_, hkd2, ?_, ?_⟩⟩
  · rw [bumpUsage_credits]
  · rw [bumpUsage_total]
  · intro hday
    exact bumpUsage_rollover now _ hday
  · intro hday
    have hnot : ¬ ({ kd with credits := kd.credits - cost } : KeyData).last_reset.day < now.day := by
      show ¬ kd.last_reset.day < now.day
      omega
    exact bumpUsage_same_day now _ hnot

/-- Success path of image_generation: present active key with at least 2
credits. -/
theorem image_success (st : ApiState) (k : String) (kd : KeyData)
    (hk : lookupKey st.keys k = some kd) (ha : kd.is_active = true)
    (hc : (2 : Int) ≤ kd.credits) (prompt : String) (width height : Nat)
    (now : Time) (elapsed : Nat) :
    ChargedOutcome st k kd 2 (image_generation st prompt width height k now elapsed) ∧
    RolloverOutcome k kd now (image_generation st prompt width height k now elapsed) := by
  have hchk := check_credits_true st k kd 2 hk ha hc
  unfold image_generation
  rw [if_neg (by simp [hchk]), if_neg (by simp [hk])]
  exact charged_pipeline_outcome st k kd 2 "/image" (some prompt) (some elapsed) now _ hk

/-- Success path of video_generation: present active key with at least 2
credits. -/
theorem video_success (st : ApiState) (k : String) (kd : KeyData)
    (hk : lookupKey st.keys k = some kd) (ha : kd.is_active = true)
    (hc : (2 : Int) ≤ kd.credits) (prompt : String) (now : Time) (elapsed : Nat) :
    ChargedOutcome st k kd 2 (video_generation st prompt k now elapsed) ∧
    RolloverOutcome k kd now (video_generation st prompt k now elapsed) := by
  have hchk := check_credits_true st k kd 2 hk ha hc
  unfold video_generation
  rw [if_neg (by simp [hchk]), if_neg (by simp [hk])]
  exact charged_pipeline_outcome st k kd 2 "/video" (some prompt) (some elapsed) now _ hk

/-- Success path of voice_generation: present active key with at least 1
credit. -/
theorem voice_success (st : ApiState) (k : String) (kd : KeyData)
    (hk : lookupKey st.keys k = some kd) (ha : kd.is_active = true)
    (hc : (1 : Int) ≤ kd.credits) (text : String) (now : Time) (elapsed : Nat) :
    ChargedOutcome st k kd 1 (voice_generation st text k now elapsed) ∧
    RolloverOutcome k kd now (voice_generation st text k now elapsed) := by
  have hchk := check_credits_true st k kd 1 hk ha hc
  unfold voice_generation
  rw [if_neg (by simp [hchk]), if_neg (by simp [hk])]
  exact charged_pipeline_outcome st k kd 1 "/voice" (some text) (some elapsed) now _ hk

/-- Success path of qr_generation: present active key with at least 1
credit. -/
theorem qr_success (st : ApiState) (k : String) (kd : KeyData)
    (hk : lookupKey st.keys k = some kd) (ha : kd.is_active = true)
    (hc : (1 : Int) ≤ kd.credits) (data : String) (now : Time) (elapsed : Nat) :
    ChargedOutcome st k kd 1 (qr_generation st data k now elapsed) ∧
    RolloverOutcome k kd now (qr_generation st data k now elapsed) := by
  have hchk := check_credits_true st k kd 1 hk ha hc
  unfold qr_generation
  rw [if_neg (by simp [hchk]), if_neg (by simp [hk])]
  exact charged_pipeline_outcome st k kd 1 "/qr" (some data) (some elapsed) now _ hk

/-- Success path of ffinfo_redirect: present active key with at least 1
credit. -/
theorem ffinfo_success (st : ApiState) (k : String) (kd : KeyData)
    (hk : lookupKey st.keys k = some kd) (ha : kd.is_active = true)
    (hc : (1 : Int) ≤ kd.credits) (uid : String) (now : Time) (elapsed : Nat) :
    ChargedOutcome st k kd 1 (ffinfo_redirect st uid k now elapsed) ∧
    RolloverOutcome k kd now (ffinfo_redirect st uid k now elapsed) := by
  have hchk := check_credits_true st k kd 1 hk ha hc
  unfold ffinfo_redirect
  rw [if_neg (by simp [hchk]), if_neg (by simp [hk])]
  exact charged_pipeline_outcome st k kd 1 "/ffinfo" (some uid) (some elapsed) now _ hk

/-- Success path of number_service: present active key with at least 5 credits
and a successful downstream fetch. -/
theorem num_success (st : ApiState) (k : String) (kd : KeyData)
    (hk : lookupKey st.keys k = some kd) (ha : kd.is_active = true)
    (hc : (5 : Int) ≤ kd.credits) (mobile body : String) (now : Time) (elapsed : Nat) :
    ChargedOutcome st k kd 5 (number_service st mobile k (Except.ok body) now elapsed) ∧
    RolloverOutcome k kd now (number_service st mobile k (Except.ok body) now elapsed) := by
  have hchk := check_credits_true st k kd 5 hk ha hc
  unfold number_service
  rw [if_neg (by simp [hchk]), if_neg (by simp [hk])]
  exact charged_pipeline_outcome st k kd 5 "/num" (some mobile) (some elapsed) now body hk

/-- Insufficient balance on image_generation: 402 and the state untouched. -/
theorem image_insufficient (st : ApiState) (k : String) (kd : KeyData)
    (hk : lookupKey st.keys k = some kd) (hlt : kd.credits < 2)
    (prompt : String) (width height : Nat) (now : Time) (elapsed : Nat) :
    image_generation st prompt width height k now elapsed
      = (Response.error 402 "Insufficient credits. This service costs 2 credits.", st) := by
  have hc := check_credits_false_of_lt st k kd 2 hk hlt
  unfold image_generation
  rw [if_pos hc]

/-- Insufficient balance on video_generation: 402 and the state untouched. -/
theorem video_insufficient (st : ApiState) (k : String) (kd : KeyData)
    (hk : lookupKey st.keys k = some kd) (hlt : kd.credits < 2)
    (prompt : String) (now : Time) (elapsed : Nat) :
    video_generation st prompt k now elapsed
      = (Response.error 402 "Insufficient credits. This service costs 2 credits.", st) := by
  have hc := check_credits_false_of_lt st k kd 2 hk hlt
  unfold video_generation
  rw [if_pos hc]

/-- Insufficient balance on voice_generation: 402 and the state untouched. -/
theorem voice_insufficient (st : ApiState) (k : String) (kd : KeyData)
    (hk : lookupKey st.keys k = some kd) (hlt : kd.credits < 1)
    (text : String) (now : Time) (elapsed : Nat) :
    voice_generation st text k now elapsed
      = (Response.error 402 "Insufficient credits. This service costs 1 credit.", st) := by
  have hc := check_credits_false_of_lt st k kd 1 hk hlt
  unfold voice_generation
  rw [if_pos hc]

/-- Insufficient balance on qr_generation: 402 and the state untouched. -/
theorem qr_insufficient (st : ApiState) (k : String) (kd : KeyData)
    (hk : lookupKey st.keys k = some kd) (hlt : kd.credits < 1)
    (data : String) (now : Time) (elapsed : Nat) :
    qr_generation st data k now elapsed
      = (Response.error 402 "Insufficient credits. This service costs 1 credit.", st) := by
  have hc := check_credits_false_of_lt st k kd 1 hk hlt
  unfold qr_generation
  rw [if_pos hc]

/-- Insufficient balance on ffinfo_redirect: 402 and the state untouched. -/
theorem ffinfo_insufficient (st : ApiState) (k : String) (kd : KeyData)
    (hk : lookupKey st.keys k = some kd) (hlt : kd.credits < 1)
    (uid : String) (now : Time) (elapsed : Nat) :
    ffinfo_redirect st uid k now elapsed
      = (Response.error 402 "Insufficient credits. This service costs 1 credit.", st) := by
  have hc := check_credits_false_of_lt st k kd 1 hk hlt
  unfold ffinfo_redirect
  rw [if_pos hc]

/-- Insufficient balance on number_service: 402 and the state untouched,
whatever the downstream would have answered. -/
theorem num_insufficient (st : ApiState) (k : String) (kd : KeyData)
    (hk : lookupKey st.keys k = some kd) (hlt : kd.credits < 5)
    (mobile : String) (ds : Except String String) (now : Time) (elapsed : Nat) :
    number_service st mobile k ds now elapsed
      = (Response.error 402 "Insufficient credits. This service costs 5 credits.", st) := by
  have hc := check_credits_false_of_lt st k kd 5 hk hlt
  unfold number_service
  rw [if_pos hc]

/-- A handler outcome that cannot be a 500: either a success or the 402 raised
by the credit check. -/
def NoDownstreamOutcome (out : Response × ApiState) : Prop :=
  (∃ body, out.1 = Response.success body) ∨
  ∃ d, out.1 = Response.error 402 d

/-- image_generation never reaches a 500 or 401: its only outcomes are
success and the 402 of the credit check. -/
theorem image_no_500 (st : ApiState) (prompt : String) (width height : Nat)
    (k : String) (now : Time) (elapsed : Nat) :
    NoDownstreamOutcome (image_generation st prompt width height k now elapsed) := by
  unfold image_generation
  by_cases hc : check_credits st k 2 = false
  · rw [if_pos hc]
    exact Or.inr ⟨_, rfl⟩
  · rw [if_neg hc]
    obtain ⟨kd, hkd, -, -⟩ :=
      check_credits_spec st k 2 (bool_eq_true_of_not_false _ hc)
    rw [if_neg (by simp [hkd])]
    exact Or.inl ⟨_, rfl⟩

/-- video_generation never reaches a 500 or 401. -/
theorem video_no_500 (st : ApiState) (prompt k : String) (now : Time)
    (elapsed : Nat) :
    NoDownstreamOutcome (video_generation st prompt k now elapsed) := by
  unfold video_generation
  by_cases hc : check_credits st k 2 = false
  · rw [if_pos hc]
    exact Or.inr ⟨_, rfl⟩
  · rw [if_neg hc]
    obtain ⟨kd, hkd, -, -⟩ :=
      check_credits_spec st k 2 (bool_eq_true_of_not_false _ hc)
    rw [if_neg (by simp [hkd])]
    exact Or.inl ⟨_, rfl⟩

/-- voice_generation never reaches a 500 or 401. -/
theorem voice_no_500 (st : ApiState) (text k : String) (now : Time)
    (elapsed : Nat) :
    NoDownstreamOutcome (voice_generation st text k now elapsed) := by
  unfold voice_generation
  by_cases hc : check_credits st k 1 = false
  · rw [if_pos hc]
    exact Or.inr ⟨_, rfl⟩
  · rw [if_neg hc]
    obtain ⟨kd, hkd, -, -⟩ :=
      check_credits_spec st k 1 (bool_eq_true_of_not_false _ hc)
    rw [if_neg (by simp [hkd])]
    exact Or.inl ⟨_, rfl⟩

/-- qr_generation never reaches a 500 or 401. -/
theorem qr_no_500 (st : ApiState) (data k : String) (now : Time)
    (elapsed : Nat) :
    NoDownstreamOutcome (qr_generation st data k now elapsed) := by
  unfold qr_generation
  by_cases hc : check_credits st k 1 = false
  · rw [if_pos hc]
    exact Or.inr ⟨_, rfl⟩
  · rw [if_neg hc]
    obtain ⟨kd, hkd, -, -⟩ :=
      check_credits_spec st k 1 (bool_eq_true_of_not_false _ hc)
    rw [if_neg (by simp [hkd])]
    exact Or.inl ⟨_, rfl⟩

/-- ffinfo_redirect never reaches a 500 or 401. -/
theorem ffinfo_no_500 (st : ApiState) (uid k : String) (now : Time)
    (elapsed : Nat) :
    NoDownstreamOutcome (ffinfo_redirect st uid k now elapsed) := by
  unfold ffinfo_redirect
  by_cases hc : check_credits st k 1 = false
  · rw [if_pos hc]
    exact Or.inr ⟨_, rfl⟩
  · rw [if_neg hc]
    obtain ⟨kd, hkd, -, -⟩ :=
      check_credits_spec st k 1 (bool_eq_true_of_not_false _ hc)
    rw [if_neg (by simp [hkd])]
    exact Or.inl ⟨_, rfl⟩

/-- A copy of the default account with only 1 credit left. -/
def poorKd : KeyData := { exKd with credits := 1 }

/-- A store holding only the poor account under key P. -/
def poorState : ApiState := { keys := [("P", poorKd)], logs := [] }

/-- Claim C1: the claim says an unknown or inactive key fails with the 401
InvalidKey error and that an unknown key never receives the 402
InsufficientCredits error.  The code evaluates check_credits, which conflates
absent, inactive and underfunded keys, before the 401 validation, so the 401
branch is dead: this theorem evaluates the handler on an unknown key and on an
inactive key with ample balance, and both receive the 402 InsufficientCredits
error, contradicting the claim; the state is left untouched. -/
theorem unknown_key_receives_insufficient_credits :
    image_generation emptyState "cat" 512 512 "nokey" ⟨0, 0⟩ 0
      = (Response.error 402 "Insufficient credits. This service costs 2 credits.",
         emptyState) ∧
    (image_generation inactiveState "cat" 512 512 "IK" ⟨0, 0⟩ 0).1
      = Response.error 402 "Insufficient credits. This service costs 2 credits." := by
  exact ⟨rfl, rfl⟩

/-- Claim C2: a metered call on a known active key with balance at least the
static cost of the operation (image 2, video 2, voice 1, qr 1, num 5,
ffinfo 1) returns success, deducts exactly that cost, increments
total_requests by exactly one, and appends exactly one ledger entry recording
that cost. -/
theorem successful_call_charges_exact_cost (st : ApiState) (k : String)
    (kd : KeyData) (hk : lookupKey st.keys k = some kd)
    (ha : kd.is_active = true) :
    ((2 : Int) ≤ kd.credits → ∀ prompt width height now elapsed,
      ChargedOutcome st k kd 2 (image_generation st prompt width height k now elapsed)) ∧
    ((2 : Int) ≤ kd.credits → ∀ prompt now elapsed,
      ChargedOutcome st k kd 2 (video_generation st prompt k now elapsed)) ∧
    ((1 : Int) ≤ kd.credits → ∀ text now elapsed,
      ChargedOutcome st k kd 1 (voice_generation st text k now elapsed)) ∧
    ((1 : Int) ≤ kd.credits → ∀ data now elapsed,
      ChargedOutcome st k kd 1 (qr_generation st data k now elapsed)) ∧
    ((5 : Int) ≤ kd.credits → ∀ mobile body now elapsed,
      ChargedOutcome st k kd 5 (number_service st mobile k (Except.ok body) now elapsed)) ∧
    ((1 : Int) ≤ kd.credits → ∀ uid now elapsed,
      ChargedOutcome st k kd 1 (ffinfo_redirect st uid k now elapsed)) := by
  refine ⟨fun hc prompt width height now elapsed => (image_success st k kd hk ha hc prompt width height now elapsed).1,
    fun hc prompt now elapsed => (video_success st k kd hk ha hc prompt now elapsed).1,
    fun hc text now elapsed => (voice_success st k kd hk ha hc text now elapsed).1,
    fun hc data now elapsed => (qr_success st k kd hk ha hc data now elapsed).1,
    fun hc mobile body now elapsed => (num_success st k kd hk ha hc mobile body now elapsed).1,
    fun hc uid now elapsed => (ffinfo_success st k kd hk ha hc uid now elapsed).1⟩

/-- Concrete instance of the C2 theorem: the default account charged 2 credits
by the image handler. -/
theorem successful_call_charges_exact_cost_witness :
    lookupKey exState.keys "K" = some exKd ∧ exKd.is_active = true ∧
    (2 : Int) ≤ exKd.credits ∧
    ChargedOutcome exState "K" exKd 2
      (image_generation exState "cat" 512 512 "K" ⟨1, 0⟩ 0) := by
  refine ⟨rfl, rfl, by decide, ?_⟩
  exact (successful_call_charges_exact_cost exState "K" exKd rfl rfl).1
    (by decide) "cat" 512 512 ⟨1, 0⟩ 0

/-- Claim C3: a metered call on a present account whose balance is strictly
below the cost of the operation returns the 402 InsufficientCredits error and
returns the state completely unchanged, so balance, total_requests,
daily_requests and the ledger are all untouched. -/
theorem insufficient_credits_leaves_state_unchanged (st : ApiState) (k : String)
    (kd : KeyData) (hk : lookupKey st.keys k = some kd) :
    (kd.credits < 2 → ∀ prompt width height now elapsed,
      image_generation st prompt width height k now elapsed
        = (Response.error 402 "Insufficient credits. This service costs 2 credits.", st)) ∧
    (kd.credits < 2 → ∀ prompt now elapsed,
      video_generation st prompt k now elapsed
        = (Response.error 402 "Insufficient credits. This service costs 2 credits.", st)) ∧
    (kd.credits < 1 → ∀ text now elapsed,
      voice_generation st text k now elapsed
        = (Response.error 402 "Insufficient credits. This service costs 1 credit.", st)) ∧
    (kd.credits < 1 → ∀ data now elapsed,
      qr_generation st data k now elapsed
        = (Response.error 402 "Insufficient credits. This service costs 1 credit.", st)) ∧
    (kd.credits < 5 → ∀ mobile ds now elapsed,
      number_service st mobile k ds now elapsed
        = (Response.error 402 "Insufficient credits. This service costs 5 credits.", st)) ∧
    (kd.credits < 1 → ∀ uid now elapsed,
      ffinfo_redirect st uid k now elapsed
        = (Response.error 402 "Insufficient credits. This service costs 1 credit.", st)) := by
  refine ⟨fun hlt prompt width height now elapsed => image_insufficient st k kd hk hlt prompt width height now elapsed,
    fun hlt prompt now elapsed => video_insufficient st k kd hk hlt prompt now elapsed,
    fun hlt text now elapsed => voice_insufficient st k kd hk hlt text now elapsed,
    fun hlt data now elapsed => qr_insufficient st k kd hk hlt data now elapsed,
    fun hlt mobile ds now elapsed => num_insufficient st k kd hk hlt mobile ds now elapsed,
    fun hlt uid now elapsed => ffinfo_insufficient st k kd hk hlt uid now elapsed⟩

/-- Concrete instance of the C3 theorem: the account with a single credit is
refused by the image handler and nothing changes. -/
theorem insufficient_credits_leaves_state_unchanged_witness :
    lookupKey poorState.keys "P" = some poorKd ∧ poorKd.credits < 2 ∧
    image_generation poorState "cat" 512 512 "P" ⟨1, 0⟩ 0
      = (Response.error 402 "Insufficient credits. This service costs 2 credits.",
         poorState) := by
  refine ⟨rfl, by decide, ?_⟩
  exact (insufficient_credits_leaves_state_unchanged poorState "P" poorKd rfl).1
    (by decide) "cat" 512 512 ⟨1, 0⟩ 0

/-- Claim C4: when the downstream fetch of the num handler fails (network
error, timeout or non-success status), the handler of an authorized request
returns the 500 DownstreamError carrying the original cause and the state is
returned completely unchanged: no deduction, no counter movement, no ledger
entry. -/
theorem downstream_failure_leaves_state_unchanged (st : ApiState) (k : String)
    (kd : KeyData) (hk : lookupKey st.keys k = some kd)
    (ha : kd.is_active = true) (hc : (5 : Int) ≤ kd.credits)
    (mobile cause : String) (now : Time) (elapsed : Nat) :
    number_service st mobile k (Except.error cause) now elapsed
      = (Response.error 500 ("Number service error: " ++ cause), st) := by
  have hchk := check_credits_true st k kd 5 hk ha hc
  unfold number_service
  rw [if_neg (by simp [hchk]), if_neg (by simp [hk])]

/-- Concrete instance of the C4 theorem: a timeout on the num fetch for the
default account yields a 500 and no state change. -/
theorem downstream_failure_leaves_state_unchanged_witness :
    lookupKey exState.keys "K" = some exKd ∧ exKd.is_active = true ∧
    (5 : Int) ≤ exKd.credits ∧
    number_service exState "999" "K" (Except.error "timeout") ⟨1, 0⟩ 0
      = (Response.error 500 "Number service error: timeout", exState) := by
  refine ⟨rfl, rfl, by decide, ?_⟩
  exact downstream_failure_leaves_state_unchanged exState "K" exKd rfl rfl
    (by decide) "999" "timeout" ⟨1, 0⟩ 0

/-- Every stored account has a non-negative balance. -/
def CreditsNonneg (st : ApiState) : Prop := ∀ p ∈ st.keys, 0 ≤ p.2.credits

/-- A deduction guarded by a passing credit check keeps all balances
non-negative. -/
theorem creditsNonneg_use_credits (st : ApiState) (k : String) (c : Int)
    (h : CreditsNonneg st) (hchk : check_credits st k c = true) :
    CreditsNonneg (use_credits st k c) := by
  obtain ⟨kd, hkd, -, hc⟩ := check_credits_spec st k c hchk
  intro p hp
  rcases mem_updateKey st.keys k _ p hp with hmem | ⟨d, hd, rfl⟩
  · exact h p hmem
  · rw [hkd] at hd
    injection hd with hd'
    subst hd'
    show 0 ≤ kd.credits - c
    omega

/-- update_usage never changes any balance. -/
theorem creditsNonneg_update_usage (st : ApiState) (k : String) (now : Time)
    (h : CreditsNonneg st) : CreditsNonneg (update_usage st k now) := by
  intro p hp
  rcases mem_updateKey st.keys k _ p hp with hmem | ⟨d, hd, rfl⟩
  · exact h p hmem
  · have hd2 := h (k, d) (lookup_mem _ _ _ hd)
    show 0 ≤ (bumpUsage now d).credits
    rw [bumpUsage_credits]
    exact hd2

/-- log_request never changes any balance. -/
theorem creditsNonneg_log_request (st : ApiState) (k e : String)
    (pr : Option String) (rt : Option Nat) (c : Int) (t : Time)
    (h : CreditsNonneg st) : CreditsNonneg (log_request st k e pr rt c t) := by
  intro p hp
  rw [log_request_keys] at hp
  exact h p hp

/-- One handler invocation keeps all balances non-negative. -/
theorem creditsNonneg_step (st : ApiState) (r : Request) (h : CreditsNonneg st) :
    CreditsNonneg (stepRequest st r) := by
  cases r with
  | ffinfo uid k now el =>
    show CreditsNonneg (ffinfo_redirect st uid k now el).2
    unfold ffinfo_redirect
    by_cases hc : check_credits st k 1 = false
    · rw [if_pos hc]
      exact h
    · rw [if_neg hc]
      have ht := bool_eq_true_of_not_false _ hc
      obtain ⟨kd, hkd, -, -⟩ := check_credits_spec st k 1 ht
      rw [if_neg (by simp [hkd])]
      exact creditsNonneg_log_request _ _ _ _ _ _ _
        (creditsNonneg_update_usage _ _ _ (creditsNonneg_use_credits _ _ _ h ht))
  | image p w hgt k now el =>
    show CreditsNonneg (image_generation st p w hgt k now el).2
    unfold image_generation
    by_cases hc : check_credits st k 2 = false
    · rw [if_pos hc]
      exact h
    · rw [if_neg hc]
      have ht := bool_eq_true_of_not_false _ hc
      obtain ⟨kd, hkd, -, -⟩ := check_credits_spec st k 2 ht
      rw [if_neg (by simp [hkd])]
      exact creditsNonneg_log_request _ _ _ _ _ _ _
        (creditsNonneg_update_usage _ _ _ (creditsNonneg_use_credits _ _ _ h ht))
  | voice t k now el =>
    show CreditsNonneg (voice_generation st t k now el).2
    unfold voice_generation
    by_cases hc : check_credits st k 1 = false
    · rw [if_pos hc]
      exact h
    · rw [if_neg hc]
      have ht := bool_eq_true_of_not_false _ hc
      obtain ⟨kd, hkd, -, -⟩ := check_credits_spec st k 1 ht
      rw [if_neg (by simp [hkd])]
      exact creditsNonneg_log_request _ _ _ _ _ _ _
        (creditsNonneg_update_usage _ _ _ (creditsNonneg_use_credits _ _ _ h ht))
  | qr d k now el =>
    show CreditsNonneg (qr_generation st d k now el).2
    unfold qr_generation
    by_cases hc : check_credits st k 1 = false
    · rw [if_pos hc]
      exact h
    · rw [if_neg hc]
      have ht := bool_eq_true_of_not_false _ hc
      obtain ⟨kd, hkd, -, -⟩ := check_credits_spec st k 1 ht
      rw [if_neg (by simp [hkd])]
      exact creditsNonneg_log_request _ _ _ _ _ _ _
        (creditsNonneg_update_usage _ _ _ (creditsNonneg_use_credits _ _ _ h ht))
  | video p k now el =>
    show CreditsNonneg (video_generation st p k now el).2
    unfold video_generation
    by_cases hc : check_credits st k 2 = false
    · rw [if_pos hc]
      exact h
    · rw [if_neg hc]
      have ht := bool_eq_true_of_not_false _ hc
      obtain ⟨kd, hkd, -, -⟩ := check_credits_spec st k 2 ht
      rw [if_neg (by simp [hkd])]
      exact creditsNonneg_log_request _ _ _ _ _ _ _
        (creditsNonneg_update_usage _ _ _ (creditsNonneg_use_credits _ _ _ h ht))
  | num m k ds now el =>
    show CreditsNonneg (number_service st m k ds now el).2
    unfold number_service
    by_cases hc : check_credits st k 5 = false
    · rw [if_pos hc]
      exact h
    · rw [if_neg hc]
      have ht := bool_eq_true_of_not_false _ hc
      obtain ⟨kd, hkd, -, -⟩ := check_credits_spec st k 5 ht
      rw [if_neg (by simp [hkd])]
      cases ds with
      | error cause => exact h
      | ok body =>
        exact creditsNonneg_log_request _ _ _ _ _ _ _
          (creditsNonneg_update_usage _ _ _ (creditsNonneg_use_credits _ _ _ h ht))

/-- Claim C5: starting from any store whose balances are all non-negative, no
finite sequence of metered invocations can drive any balance negative; since
every prefix of a sequence is itself a sequence of requests, the balance is
non-negative after every prefix. -/
theorem credit_balance_never_negative (st : ApiState) (h : CreditsNonneg st)
    (rs : List Request) : CreditsNonneg (runRequests st rs) := by
  induction rs generalizing st with
  | nil => exact h
  | cons r rs ih => exact ih (stepRequest st r) (creditsNonneg_step st r h)

/-- Concrete instance of the C5 theorem: two charged requests on the default
account keep every balance non-negative. -/
theorem credit_balance_never_negative_witness :
    CreditsNonneg exState ∧
    CreditsNonneg (runRequests exState
      [Request.image "cat" 512 512 "K" ⟨1, 0⟩ 0, Request.qr "x" "K" ⟨1, 0⟩ 0]) := by
  have h : CreditsNonneg exState := by
    intro p hp
    simp [exState] at hp
    subst hp
    decide
  exact ⟨h, credit_balance_never_negative exState h
    [Request.image "cat" 512 512 "K" ⟨1, 0⟩ 0, Request.qr "x" "K" ⟨1, 0⟩ 0]⟩

/-- Claim C6: a successful charged request on any metered operation, made on a
UTC day strictly after the stored lastResetDate, sets daily_requests to
exactly 1 and last_reset to now, whatever the prior counter was; on the same
UTC day it increments daily_requests by exactly 1. -/
theorem daily_rollover_on_success (st : ApiState) (k : String) (kd : KeyData)
    (hk : lookupKey st.keys k = some kd) (ha : kd.is_active = true) :
    ((2 : Int) ≤ kd.credits → ∀ prompt width height now elapsed,
      RolloverOutcome k kd now (image_generation st prompt width height k now elapsed)) ∧
    ((2 : Int) ≤ kd.credits → ∀ prompt now elapsed,
      RolloverOutcome k kd now (video_generation st prompt k now elapsed)) ∧
    ((1 : Int) ≤ kd.credits → ∀ text now elapsed,
      RolloverOutcome k kd now (voice_generation st text k now elapsed)) ∧
    ((1 : Int) ≤ kd.credits → ∀ data now elapsed,
      RolloverOutcome k kd now (qr_generation st data k now elapsed)) ∧
    ((5 : Int) ≤ kd.credits → ∀ mobile body now elapsed,
      RolloverOutcome k kd now (number_service st mobile k (Except.ok body) now elapsed)) ∧
    ((1 : Int) ≤ kd.credits → ∀ uid now elapsed,
      RolloverOutcome k kd now (ffinfo_redirect st uid k now elapsed)) := by
  refine ⟨fun hc prompt width height now elapsed => (image_success st k kd hk ha hc prompt width height now elapsed).2,
    fun hc prompt now elapsed => (video_success st k kd hk ha hc prompt now elapsed).2,
    fun hc text now elapsed => (voice_success st k kd hk ha hc text now elapsed).2,
    fun hc data now elapsed => (qr_success st k kd hk ha hc data now elapsed).2,
    fun hc mobile body now elapsed => (num_success st k kd hk ha hc mobile body now elapsed).2,
    fun hc uid now elapsed => (ffinfo_success st k kd hk ha hc uid now elapsed).2⟩

/-- Concrete instance of the C6 theorem: the default account, last reset on
day 0, charged by the image handler on day 1. -/
theorem daily_rollover_on_success_witness :
    lookupKey exState.keys "K" = some exKd ∧ exKd.is_active = true ∧
    (2 : Int) ≤ exKd.credits ∧
    RolloverOutcome "K" exKd ⟨1, 0⟩
      (image_generation exState "cat" 512 512 "K" ⟨1, 0⟩ 0) := by
  refine ⟨rfl, rfl, by decide, ?_⟩
  exact (daily_rollover_on_success exState "K" exKd rfl rfl).1
    (by decide) "cat" 512 512 ⟨1, 0⟩ 0

/-- Claim C7: starting below or at the 100-entry cap, an append leaves the
ledger at or below the cap; below the cap the entry simply goes to the back,
and exactly at the cap the single oldest entry (index 0) is evicted while the
remaining entries keep their order in front of the new one. -/
theorem ledger_capped_and_evicts_oldest (st : ApiState) (k e : String)
    (pr : Option String) (rt : Option Nat) (c : Int) (t : Time)
    (hlen : st.logs.length ≤ 100) :
    (log_request st k e pr rt c t).logs.length ≤ 100 ∧
    (st.logs.length < 100 →
      (log_request st k e pr rt c t).logs
        = st.logs ++ [newLogEntry st k e pr rt c t]) ∧
    (st.logs.length = 100 →
      (log_request st k e pr rt c t).logs
        = st.logs.drop 1 ++ [newLogEntry st k e pr rt c t]) := by
  rw [log_request_logs]
  by_cases h100 : st.logs.length + 1 > 100
  · rw [if_pos h100]
    refine ⟨?_, ?_, ?_⟩
    · rw [List.length_drop, List.length_append]
      simp
      omega
    · intro hlt
      omega
    · intro heq
      exact List.drop_append_of_le_length (by omega)
  · rw [if_neg h100]
    rw [List.drop_zero]
    refine ⟨?_, ?_, ?_⟩
    · rw [List.length_append]
      simp
      omega
    · intro hlt
      rfl
    · intro heq
      omega

/-- Concrete instance of the C7 theorem: appending to an empty ledger. -/
theorem ledger_capped_and_evicts_oldest_witness :
    emptyState.logs.length ≤ 100 ∧ emptyState.logs.length < 100 ∧
    (log_request emptyState "K" "/image" none none 2 ⟨0, 0⟩).logs.length ≤ 100 ∧
    (log_request emptyState "K" "/image" none none 2 ⟨0, 0⟩).logs
      = emptyState.logs ++ [newLogEntry emptyState "K" "/image" none none 2 ⟨0, 0⟩] := by
  have h := ledger_capped_and_evicts_oldest emptyState "K" "/image" none none 2
    ⟨0, 0⟩ (by decide)
  exact ⟨by decide, by decide, h.1, h.2.1 (by decide)⟩

set_option maxRecDepth 4000

/-- Claim C8 counterexample: ids are NOT strictly increasing across the
ledger lifetime.  With the fixed constant arguments of appendMany, the entry
appended by the 101st append carries id 101, and the entry appended by the
102nd append again carries id 101, because log_request computes the id as
len(logs) + 1 and the length is pinned at 100 once eviction starts. -/
theorem ledger_ids_repeat_after_capacity :
    ((appendMany emptyState 101).logs.getLast?).map LogEntry.id = some 101 ∧
    ((appendMany emptyState 102).logs.getLast?).map LogEntry.id = some 101 ∧
    (appendMany emptyState 102).logs.length = 100 := by
  refine ⟨?_, ?_, ?_⟩ <;> decide

/-- Claim C8 amended: every append assigns the id ledger-size + 1 to the new
entry; below the 100-entry cap the size grows by one per append, so ids are
strictly increasing until the cap is reached, but at or above the cap the
size no longer grows, so every later append assigns the same id 101 and ids
repeat once eviction begins. -/
theorem ledger_id_is_size_plus_one (st : ApiState) (k e : String)
    (pr : Option String) (rt : Option Nat) (c : Int) (t : Time) :
    ((log_request st k e pr rt c t).logs.getLast?).map LogEntry.id
      = some (st.logs.length + 1) ∧
    (st.logs.length < 100 →
      (log_request st k e pr rt c t).logs.length = st.logs.length + 1) ∧
    (100 ≤ st.logs.length →
      (log_request st k e pr rt c t).logs.length = st.logs.length) := by
  rw [log_request_logs]
  by_cases h100 : st.logs.length + 1 > 100
  · rw [if_pos h100]
    rw [List.drop_append_of_le_length (by omega)]
    refine ⟨?_, ?_, ?_⟩
    · rw [List.getLast?_concat]
      rfl
    · intro hlt
      omega
    · intro hge
      rw [List.length_append, List.length_drop]
      simp
      omega
  · rw [if_neg h100]
    rw [List.drop_zero]
    refine ⟨?_, ?_, ?_⟩
    · rw [List.getLast?_concat]
      rfl
    · intro hlt
      rw [List.length_append]
      rfl
    · intro hge
      omega

/-- Concrete instance of the amended C8 theorem at the empty ledger. -/
theorem ledger_id_is_size_plus_one_witness :
    ((log_request emptyState "K" "/image" none none 2 ⟨0, 0⟩).logs.getLast?).map LogEntry.id
      = some 1 ∧
    (log_request emptyState "K" "/image" none none 2 ⟨0, 0⟩).logs.length = 1 := by
  have h := ledger_id_is_size_plus_one emptyState "K" "/image" none none 2 ⟨0, 0⟩
  exact ⟨h.1, h.2.1 (by decide)⟩

/-- bumpUsage never changes the id. -/
theorem bumpUsage_id (now : Time) (kd : KeyData) : (bumpUsage now kd).id = kd.id := by
  unfold bumpUsage
  dsimp only
  split <;> rfl

/-- bumpUsage never changes the key string. -/
theorem bumpUsage_key (now : Time) (kd : KeyData) : (bumpUsage now kd).key = kd.key := by
  unfold bumpUsage
  dsimp only
  split <;> rfl

/-- bumpUsage never changes the display name. -/
theorem bumpUsage_name (now : Time) (kd : KeyData) : (bumpUsage now kd).name = kd.name := by
  unfold bumpUsage
  dsimp only
  split <;> rfl

/-- bumpUsage never changes the creation time. -/
theorem bumpUsage_created_at (now : Time) (kd : KeyData) :
    (bumpUsage now kd).created_at = kd.created_at := by
  unfold bumpUsage
  dsimp only
  split <;> rfl

/-- bumpUsage never changes the active flag. -/
theorem bumpUsage_is_active (now : Time) (kd : KeyData) :
    (bumpUsage now kd).is_active = kd.is_active := by
  unfold bumpUsage
  dsimp only
  split <;> rfl

/-- bumpUsage always stamps last_used with the current time. -/
theorem bumpUsage_last_used (now : Time) (kd : KeyData) :
    (bumpUsage now kd).last_used = some now := by
  unfold bumpUsage
  dsimp only
  split <;> rfl

/-- Agreement of two account records on every field the metering logic reads
or writes: every field except daily_limit and expires_at. -/
def KeyDataRel (a b : KeyData) : Prop :=
  a.id = b.id ∧ a.key = b.key ∧ a.name = b.name ∧ a.created_at = b.created_at ∧
  a.is_active = b.is_active ∧ a.total_requests = b.total_requests ∧
  a.daily_requests = b.daily_requests ∧ a.credits = b.credits ∧
  a.last_reset = b.last_reset ∧ a.last_used = b.last_used

/-- Two states that agree everywhere except possibly in the daily_limit and
expires_at fields of their accounts. -/
def StateRel (s t : ApiState) : Prop :=
  List.Forall₂ (fun p q => p.1 = q.1 ∧ KeyDataRel p.2 q.2) s.keys t.keys ∧
  s.logs = t.logs

/-- Related stores answer lookups with both-none or with related records. -/
theorem lookup_rel (ks kt : List (String × KeyData))
    (h : List.Forall₂ (fun p q => p.1 = q.1 ∧ KeyDataRel p.2 q.2) ks kt)
    (k : String) :
    (lookupKey ks k = none ∧ lookupKey kt k = none) ∨
    ∃ a b, lookupKey ks k = some a ∧ lookupKey kt k = some b ∧ KeyDataRel a b := by
  induction h with
  | nil => exact Or.inl ⟨rfl, rfl⟩
  | @cons p q l₁ l₂ h1 h2 ih =>
    obtain ⟨p1, p2⟩ := p
    obtain ⟨q1, q2⟩ := q
    obtain ⟨hpq1, hpq2⟩ := h1
    dsimp only at hpq1 hpq2
    subst hpq1
    by_cases hk : p1 = k
    · exact Or.inr ⟨p2, q2, by simp [lookupKey, hk], by simp [lookupKey, hk], hpq2⟩
    · simpa [lookupKey, hk] using ih

/-- The credit check reads only fields on which related states agree. -/
theorem check_credits_rel (s t : ApiState) (h : StateRel s t) (k : String)
    (c : Int) : check_credits s k c = check_credits t k c := by
  rcases lookup_rel s.keys t.keys h.1 k with ⟨h1, h2⟩ | ⟨a, b, h1, h2, hab⟩
  · unfold check_credits
    rw [h1, h2]
  · unfold check_credits
    rw [h1, h2]
    show (if a.is_active = false then false else decide (c ≤ a.credits))
       = (if b.is_active = false then false else decide (c ≤ b.credits))
    obtain ⟨-, -, -, -, hact, -, -, hcr, -, -⟩ := hab
    rw [hact, hcr]

/-- updateKey applied on both sides of related stores with a relation
preserving transform yields related stores. -/
theorem updateKey_rel (ks kt : List (String × KeyData)) (k : String)
    (f : KeyData → KeyData)
    (h : List.Forall₂ (fun p q => p.1 = q.1 ∧ KeyDataRel p.2 q.2) ks kt)
    (hf : ∀ a b, KeyDataRel a b → KeyDataRel (f a) (f b)) :
    List.Forall₂ (fun p q => p.1 = q.1 ∧ KeyDataRel p.2 q.2)
      (updateKey ks k f) (updateKey kt k f) := by
  induction h with
  | nil => exact List.Forall₂.nil
  | @cons p q l₁ l₂ h1 h2 ih =>
    obtain ⟨p1, p2⟩ := p
    obtain ⟨q1, q2⟩ := q
    obtain ⟨hpq1, hpq2⟩ := h1
    dsimp only at hpq1 hpq2
    subst hpq1
    by_cases hk : p1 = k
    · simp only [updateKey, if_pos hk]
      exact List.Forall₂.cons ⟨rfl, hf _ _ hpq2⟩ h2
    · simp only [updateKey, if_neg hk]
      exact List.Forall₂.cons ⟨rfl, hpq2⟩ ih

/-- The balance deduction respects the relation. -/
theorem spend_rel (c : Int) (a b : KeyData) (h : KeyDataRel a b) :
    KeyDataRel { a with credits := a.credits - c } { b with credits := b.credits - c } := by
  obtain ⟨h1, h2, h3, h4, h5, h6, h7, h8, h9, h10⟩ := h
  exact ⟨h1, h2, h3, h4, h5, h6, h7, by rw [h8], h9, h10⟩

/-- bumpUsage respects the relation: every field it reads is one the relation
equates. -/
theorem bump_rel (now : Time) (a b : KeyData) (h : KeyDataRel a b) :
    KeyDataRel (bumpUsage now a) (bumpUsage now b) := by
  obtain ⟨h1, h2, h3, h4, h5, h6, h7, h8, h9, h10⟩ := h
  refine ⟨?_, ?_, ?_, ?_, ?_, ?_, ?_, ?_, ?_, ?_⟩
  · rw [bumpUsage_id, bumpUsage_id, h1]
  · rw [bumpUsage_key, bumpUsage_key, h2]
  · rw [bumpUsage_name, bumpUsage_name, h3]
  · rw [bumpUsage_created_at, bumpUsage_created_at, h4]
  · rw [bumpUsage_is_active, bumpUsage_is_active, h5]
  · rw [bumpUsage_total, bumpUsage_total, h6]
  · by_cases hday : a.last_reset.day < now.day
    · rw [(bumpUsage_rollover now a hday).1, (bumpUsage_rollover now b (h9 ▸ hday)).1]
    · rw [(bumpUsage_same_day now a hday).1, (bumpUsage_same_day now b (h9 ▸ hday)).1, h7]
  · rw [bumpUsage_credits, bumpUsage_credits, h8]
  · by_cases hday : a.last_reset.day < now.day
    · rw [(bumpUsage_rollover now a hday).2, (bumpUsage_rollover now b (h9 ▸ hday)).2]
    · rw [(bumpUsage_same_day now a hday).2, (bumpUsage_same_day now b (h9 ▸ hday)).2, h9]
  · rw [bumpUsage_last_used, bumpUsage_last_used]

/-- use_credits preserves the relation. -/
theorem stateRel_use_credits (s t : ApiState) (h : StateRel s t) (k : String)
    (c : Int) : StateRel (use_credits s k c) (use_credits t k c) :=
  ⟨updateKey_rel s.keys t.keys k _ h.1 (fun a b hab => spend_rel c a b hab), h.2⟩

/-- update_usage preserves the relation. -/
theorem stateRel_update_usage (s t : ApiState) (h : StateRel s t) (k : String)
    (now : Time) : StateRel (update_usage s k now) (update_usage t k now) :=
  ⟨updateKey_rel s.keys t.keys k _ h.1 (fun a b hab => bump_rel now a b hab), h.2⟩

/-- log_request preserves the relation: both sides append the identical
entry, since the entry depends only on the equal ledgers and arguments. -/
theorem stateRel_log_request (s t : ApiState) (h : StateRel s t) (k e : String)
    (pr : Option String) (rt : Option Nat) (c : Int) (tm : Time) :
    StateRel (log_request s k e pr rt c tm) (log_request t k e pr rt c tm) := by
  obtain ⟨hkeys, hlogs⟩ := h
  constructor
  · show List.Forall₂ _ (log_request s k e pr rt c tm).keys (log_request t k e pr rt c tm).keys
    rw [log_request_keys, log_request_keys]
    exact hkeys
  · show (log_request s k e pr rt c tm).logs = (log_request t k e pr rt c tm).logs
    rw [log_request_logs, log_request_logs]
    simp only [newLogEntry]
    rw [hlogs]

/-- Claim C9: dailyLimit and expiresAt are stored but never read by the
authorization and charging logic.  For any two stores that agree on every
account field except possibly daily_limit and expires_at (and on the ledger),
every metered request produces the identical response and resulting stores
that still agree on everything except those two fields, so the two fields can
never influence any observable outcome. -/
theorem daily_limit_and_expiry_never_enforced (s t : ApiState)
    (h : StateRel s t) (r : Request) :
    (runRequest s r).1 = (runRequest t r).1 ∧
    StateRel (runRequest s r).2 (runRequest t r).2 := by
  cases r with
  | ffinfo uid k now el =>
    show (ffinfo_redirect s uid k now el).1 = (ffinfo_redirect t uid k now el).1 ∧
      StateRel (ffinfo_redirect s uid k now el).2 (ffinfo_redirect t uid k now el).2
    have hcc := check_credits_rel s t h k 1
    unfold ffinfo_redirect
    by_cases hc : check_credits s k 1 = false
    · rw [if_pos hc, if_pos (hcc ▸ hc)]
      exact ⟨rfl, h⟩
    · have ht := bool_eq_true_of_not_false _ hc
      obtain ⟨kd, hkd, -, -⟩ := check_credits_spec s k 1 ht
      obtain ⟨kd2, hkd2, -, -⟩ := check_credits_spec t k 1 (hcc ▸ ht)
      rw [if_neg hc, if_neg (by simp [hkd]), if_neg (hcc ▸ hc), if_neg (by simp [hkd2])]
      exact ⟨rfl, stateRel_log_request _ _
        (stateRel_update_usage _ _ (stateRel_use_credits _ _ h k 1) k now)
        k "/ffinfo" (some uid) (some el) 1 now⟩
  | image p w hg k now el =>
    show (image_generation s p w hg k now el).1 = (image_generation t p w hg k now el).1 ∧
      StateRel (image_generation s p w hg k now el).2 (image_generation t p w hg k now el).2
    have hcc := check_credits_rel s t h k 2
    unfold image_generation
    by_cases hc : check_credits s k 2 = false
    · rw [if_pos hc, if_pos (hcc ▸ hc)]
      exact ⟨rfl, h⟩
    · have ht := bool_eq_true_of_not_false _ hc
      obtain ⟨kd, hkd, -, -⟩ := check_credits_spec s k 2 ht
      obtain ⟨kd2, hkd2, -, -⟩ := check_credits_spec t k 2 (hcc ▸ ht)
      rw [if_neg hc, if_neg (by simp [hkd]), if_neg (hcc ▸ hc), if_neg (by simp [hkd2])]
      exact ⟨rfl, stateRel_log_request _ _
        (stateRel_update_usage _ _ (stateRel_use_credits _ _ h k 2) k now)
        k "/image" (some p) (some el) 2 now⟩
  | voice txt k now el =>
    show (voice_generation s txt k now el).1 = (voice_generation t txt k now el).1 ∧
      StateRel (voice_generation s txt k now el).2 (voice_generation t txt k now el).2
    have hcc := check_credits_rel s t h k 1
    unfold voice_generation
    by_cases hc : check_credits s k 1 = false
    · rw [if_pos hc, if_pos (hcc ▸ hc)]
      exact ⟨rfl, h⟩
    · have ht := bool_eq_true_of_not_false _ hc
      obtain ⟨kd, hkd, -, -⟩ := check_credits_spec s k 1 ht
      obtain ⟨kd2, hkd2, -, -⟩ := check_credits_spec t k 1 (hcc ▸ ht)
      rw [if_neg hc, if_neg (by simp [hkd]), if_neg (hcc ▸ hc), if_neg (by simp [hkd2])]
      exact ⟨rfl, stateRel_log_request _ _
        (stateRel_update_usage _ _ (stateRel_use_credits _ _ h k 1) k now)
        k "/voice" (some txt) (some el) 1 now⟩
  | qr d k now el =>
    show (qr_generation s d k now el).1 = (qr_generation t d k now el).1 ∧
      StateRel (qr_generation s d k now el).2 (qr_generation t d k now el).2
    have hcc := check_credits_rel s t h k 1
    unfold qr_generation
    by_cases hc : check_credits s k 1 = false
    · rw [if_pos hc, if_pos (hcc ▸ hc)]
      exact ⟨rfl, h⟩
    · have ht := bool_eq_true_of_not_false _ hc
      obtain ⟨kd, hkd, -, -⟩ := check_credits_spec s k 1 ht
      obtain ⟨kd2, hkd2, -, -⟩ := check_credits_spec t k 1 (hcc ▸ ht)
      rw [if_neg hc, if_neg (by simp [hkd]), if_neg (hcc ▸ hc), if_neg (by simp [hkd2])]
      exact ⟨rfl, stateRel_log_request _ _
        (stateRel_update_usage _ _ (stateRel_use_credits _ _ h k 1) k now)
        k "/qr" (some d) (some el) 1 now⟩
  | video p k now el =>
    show (video_generation s p k now el).1 = (video_generation t p k now el).1 ∧
      StateRel (video_generation s p k now el).2 (video_generation t p k now el).2
    have hcc := check_credits_rel s t h k 2
    unfold video_generation
    by_cases hc : check_credits s k 2 = false
    · rw [if_pos hc, if_pos (hcc ▸ hc)]
      exact ⟨rfl, h⟩
    · have ht := bool_eq_true_of_not_false _ hc
      obtain ⟨kd, hkd, -, -⟩ := check_credits_spec s k 2 ht
      obtain ⟨kd2, hkd2, -, -⟩ := check_credits_spec t k 2 (hcc ▸ ht)
      rw [if_neg hc, if_neg (by simp [hkd]), if_neg (hcc ▸ hc), if_neg (by simp [hkd2])]
      exact ⟨rfl, stateRel_log_request _ _
        (stateRel_update_usage _ _ (stateRel_use_credits _ _ h k 2) k now)
        k "/video" (some p) (some el) 2 now⟩
  | num m k ds now el =>
    show (number_service s m k ds now el).1 = (number_service t m k ds now el).1 ∧
      StateRel (number_service s m k ds now el).2 (number_service t m k ds now el).2
    have hcc := check_credits_rel s t h k 5
    unfold number_service
    by_cases hc : check_credits s k 5 = false
    · rw [if_pos hc, if_pos (hcc ▸ hc)]
      exact ⟨rfl, h⟩
    · have ht := bool_eq_true_of_not_false _ hc
      obtain ⟨kd, hkd, -, -⟩ := check_credits_spec s k 5 ht
      obtain ⟨kd2, hkd2, -, -⟩ := check_credits_spec t k 5 (hcc ▸ ht)
      rw [if_neg hc, if_neg (by simp [hkd]), if_neg (hcc ▸ hc), if_neg (by simp [hkd2])]
      cases ds with
      | error cause => exact ⟨rfl, h⟩
      | ok body =>
        exact ⟨rfl, stateRel_log_request _ _
          (stateRel_update_usage _ _ (stateRel_use_credits _ _ h k 5) k now)
          k "/num" (some m) (some el) 5 now⟩

/-- A copy of the default account differing only in daily_limit and
expires_at. -/
def exKdAlt : KeyData := { exKd with daily_limit := 999, expires_at := ⟨9999, 0⟩ }

/-- A store holding the altered account under the same key K. -/
def exStateAlt : ApiState := { keys := [("K", exKdAlt)], logs := [] }

/-- Concrete instance of the C9 theorem: the default store and the store with
altered daily_limit and expires_at give the identical image response and
related final states. -/
theorem daily_limit_and_expiry_never_enforced_witness :
    StateRel exState exStateAlt ∧
    ((runRequest exState (Request.image "cat" 512 512 "K" ⟨1, 0⟩ 0)).1
       = (runRequest exStateAlt (Request.image "cat" 512 512 "K" ⟨1, 0⟩ 0)).1 ∧
     StateRel (runRequest exState (Request.image "cat" 512 512 "K" ⟨1, 0⟩ 0)).2
       (runRequest exStateAlt (Request.image "cat" 512 512 "K" ⟨1, 0⟩ 0)).2) := by
  have hrel : StateRel exState exStateAlt := by
    refine ⟨?_, rfl⟩
    refine List.Forall₂.cons ⟨rfl, ?_⟩ List.Forall₂.nil
    exact ⟨rfl, rfl, rfl, rfl, rfl, rfl, rfl, rfl, rfl, rfl⟩
  exact ⟨hrel, daily_limit_and_expiry_never_enforced exState exStateAlt hrel
    (Request.image "cat" 512 512 "K" ⟨1, 0⟩ 0)⟩

/-- Claim C10: the image, video, voice, qr and ffinfo handlers perform no
downstream call at all: their embeddings take no downstream-result parameter
(only number_service does, mirroring the single httpx fetch in the source),
every outcome they can produce is either a success or the 402 of the credit
check, so their 500 branch is unreachable, and on a known active key of
sufficient balance they always succeed and always charge the credits. -/
theorem local_endpoints_never_500 (st : ApiState) (k : String) :
    (∀ prompt width height now elapsed,
      NoDownstreamOutcome (image_generation st prompt width height k now elapsed)) ∧
    (∀ prompt now elapsed,
      NoDownstreamOutcome (video_generation st prompt k now elapsed)) ∧
    (∀ text now elapsed,
      NoDownstreamOutcome (voice_generation st text k now elapsed)) ∧
    (∀ data now elapsed,
      NoDownstreamOutcome (qr_generation st data k now elapsed)) ∧
    (∀ uid now elapsed,
      NoDownstreamOutcome (ffinfo_redirect st uid k now elapsed)) ∧
    (∀ kd, lookupKey st.keys k = some kd → kd.is_active = true →
      (((2 : Int) ≤ kd.credits → ∀ prompt width height now elapsed,
        ChargedOutcome st k kd 2 (image_generation st prompt width height k now elapsed)) ∧
       ((2 : Int) ≤ kd.credits → ∀ prompt now elapsed,
        ChargedOutcome st k kd 2 (video_generation st prompt k now elapsed)) ∧
       ((1 : Int) ≤ kd.credits → ∀ text now elapsed,
        ChargedOutcome st k kd 1 (voice_generation st text k now elapsed)) ∧
       ((1 : Int) ≤ kd.credits → ∀ data now elapsed,
        ChargedOutcome st k kd 1 (qr_generation st data k now elapsed)) ∧
       ((1 : Int) ≤ kd.credits → ∀ uid now elapsed,
        ChargedOutcome st k kd 1 (ffinfo_redirect st uid k now elapsed)))) := by
  refine ⟨fun prompt width height now elapsed => image_no_500 st prompt width height k now elapsed,
    fun prompt now elapsed => video_no_500 st prompt k now elapsed,
    fun text now elapsed => voice_no_500 st text k now elapsed,
    fun data now elapsed => qr_no_500 st data k now elapsed,
    fun uid now elapsed => ffinfo_no_500 st uid k now elapsed,
    fun kd hk ha => ⟨fun hc prompt width height now elapsed => (image_success st k kd hk ha hc prompt width height now elapsed).1,
      fun hc prompt now elapsed => (video_success st k kd hk ha hc prompt now elapsed).1,
      fun hc text now elapsed => (voice_success st k kd hk ha hc text now elapsed).1,
      fun hc data now elapsed => (qr_success st k kd hk ha hc data now elapsed).1,
      fun hc uid now elapsed => (ffinfo_success st k kd hk ha hc uid now elapsed).1⟩⟩

/-- Concrete instance of the C10 theorem: the voice handler on the default
account and on an unknown key, plus the guaranteed success with charge. -/
theorem local_endpoints_never_500_witness :
    NoDownstreamOutcome (voice_generation exState "hi" "K" ⟨1, 0⟩ 0) ∧
    NoDownstreamOutcome (voice_generation emptyState "hi" "nokey" ⟨1, 0⟩ 0) ∧
    (lookupKey exState.keys "K" = some exKd ∧ exKd.is_active = true ∧
     (1 : Int) ≤ exKd.credits ∧
     ChargedOutcome exState "K" exKd 1 (voice_generation exState "hi" "K" ⟨1, 0⟩ 0)) := by
  refine ⟨(local_endpoints_never_500 exState "K").2.2.1 "hi" ⟨1, 0⟩ 0,
    (local_endpoints_never_500 emptyState "nokey").2.2.1 "hi" ⟨1, 0⟩ 0,
    rfl, rfl, by decide, ?_⟩
  exact ((local_endpoints_never_500 exState "K").2.2.2.2.2 exKd rfl rfl).2.2.1
    (by decide) "hi" ⟨1, 0⟩ 0
